import Mathlib

/-!
Verification of the temperature-simulator core (src/app.js).

The JavaScript source is shallowly embedded: temperatures are rationals,
timestamps are integers (milliseconds), random draws (`Math.random()`) are
explicit rational inputs assumed to lie in `[0, 1)`, and the mutable globals
`temperatureData` / `currentTemperature` / `chartInterval` become explicit
state records threaded through the operations.
-/

namespace TempSim

/-! ### Configuration constants (CONFIG in src/app.js) -/

/-- CONFIG.TEMPERATURE.MIN -/
def TEMP_MIN : ℚ := 10

/-- CONFIG.TEMPERATURE.MAX -/
def TEMP_MAX : ℚ := 50

/-- CONFIG.TEMPERATURE.SAFE_MAX -/
def SAFE_MAX : ℚ := 30

/-- CONFIG.TEMPERATURE.DANGER_MIN -/
def DANGER_MIN : ℚ := 35

/-- CONFIG.SIMULATION.DATA_POINTS -/
def DATA_POINTS : ℕ := 50

/-- CONFIG.SIMULATION.TEMP_VARIATION -/
def TEMP_VARIATION : ℚ := 4

/-- CONFIG.COLORS.NORMAL -/
def COLOR_NORMAL : String := "#4CAF50"

/-- CONFIG.COLORS.WARNING -/
def COLOR_WARNING : String := "#FFC107"

/-- CONFIG.COLORS.DANGER -/
def COLOR_DANGER : String := "#F44336"

/-! ### Data model -/

/-- One record of the rolling buffer `temperatureData`. -/
structure Sample where
  index : ℕ
  temperature : ℚ
  timestamp : ℤ
deriving Repr, DecidableEq

instance : Inhabited Sample := ⟨⟨0, 0, 0⟩⟩

/-- The mutable globals `temperatureData` and `currentTemperature`. -/
structure AppState where
  temperatureData : List Sample
  currentTemperature : ℚ
deriving Repr, DecidableEq

/-- `Math.max(CONFIG.TEMPERATURE.MIN, Math.min(CONFIG.TEMPERATURE.MAX, t))`,
the clamp expression used both in `generateInitialData` and in
`updateTemperatureData`. -/
def clampTemp (t : ℚ) : ℚ := max TEMP_MIN (min TEMP_MAX t)

/-! ### generateInitialData -/

/-- The sample pushed at loop iteration `i` of `generateInitialData`:
`baseTemp` is the randomized base (`20 + Math.random() * 8`), `r` the draw
for this iteration, `now` the value of `Date.now()` during the call. -/
def initSample (baseTemp : ℚ) (now : ℤ) (r : ℚ) (i : ℕ) : Sample :=
  { index := i
  , temperature := clampTemp (baseTemp + (r - 1/2) * TEMP_VARIATION)
  , timestamp := now - ((DATA_POINTS : ℤ) - (i : ℤ)) * 1000 }

/-- The buffer built by `generateInitialData`: `r0` is the draw for the base
temperature, `rs i` the fluctuation draw of iteration `i`. -/
def generateInitialData (r0 : ℚ) (rs : ℕ → ℚ) (now : ℤ) : List Sample :=
  (List.range DATA_POINTS).map (fun i => initSample (20 + r0 * 8) now (rs i) i)

/-- `generateInitialData` including its final assignment
`currentTemperature = temperatureData[temperatureData.length - 1].temperature`. -/
def generateInitialState (r0 : ℚ) (rs : ℕ → ℚ) (now : ℤ) : AppState :=
  let data := generateInitialData r0 rs now
  { temperatureData := data
  , currentTemperature := data.getLast!.temperature }

/-! ### updateTemperatureData -/

/-- The `newTemp` computation of `updateTemperatureData`: `r1` is the first
`Math.random()` draw consumed (the 70/30 choice in the elevated branch, the
perturbation draw otherwise), `r2` the second draw (the magnitude in the
elevated branch; unused otherwise). -/
def rawNewTemp (cur r1 r2 : ℚ) : ℚ :=
  if cur > 35 then
    if r1 < 7/10 then
      cur - r2 * 10
    else
      cur + (r2 - 1/2) * 10
  else
    cur + (r1 - 1/2) * 20

/-- One call of `updateTemperatureData` (the store's `advance()`), restricted
to its state mutations (chart redraw and display update are I/O glue). -/
def updateTemperatureData (st : AppState) (r1 r2 : ℚ) (now : ℤ) : AppState :=
  let clampedTemp := clampTemp (rawNewTemp st.currentTemperature r1 r2)
  let nextIndex :=
    if st.temperatureData.length > 0 then st.temperatureData.getLast!.index + 1 else 0
  let pushed := st.temperatureData ++ [⟨nextIndex, clampedTemp, now⟩]
  let trimmed := if pushed.length > DATA_POINTS then pushed.tail else pushed
  { temperatureData := trimmed, currentTemperature := clampedTemp }

/-! ### Classifier -/

/-- `getTemperatureColor` from src/app.js. -/
def getTemperatureColor (temperature : ℚ) : String :=
  if temperature > DANGER_MIN then COLOR_DANGER
  else if temperature ≥ SAFE_MAX then COLOR_WARNING
  else COLOR_NORMAL

/-- `getTemperatureStatus` from src/app.js. -/
def getTemperatureStatus (temperature : ℚ) : String :=
  if temperature > DANGER_MIN then "危险"
  else if temperature ≥ SAFE_MAX then "警告"
  else "正常"

/-- The `className` the `switch` of `updateStatusIndicator` assigns for a
given status string. -/
def statusIndicatorClass (status : String) : String :=
  if status = "危险" then "status-indicator danger"
  else if status = "高温警告" ∨ status = "低温警告" then "status-indicator warning"
  else "status-indicator normal"

/-! ### Claim C3: scheme-A classifier, color and status agree -/

/-- C3: scheme A — strictly above 35 is danger, `[30, 35]` is warning,
strictly below 30 is normal, for both `getTemperatureColor` and
`getTemperatureStatus`; the color tier therefore agrees with the status tier
at every temperature. -/
theorem classifier_schemeA (t : ℚ) :
    (t > 35 → getTemperatureColor t = COLOR_DANGER ∧ getTemperatureStatus t = "危险") ∧
    (30 ≤ t ∧ t ≤ 35 → getTemperatureColor t = COLOR_WARNING ∧ getTemperatureStatus t = "警告") ∧
    (t < 30 → getTemperatureColor t = COLOR_NORMAL ∧ getTemperatureStatus t = "正常") ∧
    ((getTemperatureColor t = COLOR_DANGER ↔ getTemperatureStatus t = "危险") ∧
     (getTemperatureColor t = COLOR_WARNING ↔ getTemperatureStatus t = "警告") ∧
     (getTemperatureColor t = COLOR_NORMAL ↔ getTemperatureStatus t = "正常")) := by
  unfold getTemperatureColor getTemperatureStatus DANGER_MIN SAFE_MAX
  unfold COLOR_NORMAL COLOR_WARNING COLOR_DANGER
  split_ifs with h1 h2
  · refine ⟨fun _ => ⟨rfl, rfl⟩, fun ht => ?_, fun ht => ?_, by decide⟩
    · exact absurd ht.2 (by linarith)
    · exact absurd h1 (by linarith)
  · refine ⟨fun ht => ?_, fun _ => ⟨rfl, rfl⟩, fun ht => ?_, by decide⟩
    · exact absurd ht h1
    · exact absurd h2 (by linarith)
  · push_neg at h1 h2
    refine ⟨fun ht => ?_, fun ht => ?_, fun _ => ⟨rfl, rfl⟩, by decide⟩
    · exact absurd ht (by linarith)
    · exact absurd ht.1 (by linarith)

/-- Witness for C3 at the concrete temperatures 40, 32 and 20. -/
theorem classifier_schemeA_witness :
    (getTemperatureColor 40 = COLOR_DANGER ∧ getTemperatureStatus 40 = "危险") ∧
    (getTemperatureColor 32 = COLOR_WARNING ∧ getTemperatureStatus 32 = "警告") ∧
    (getTemperatureColor 20 = COLOR_NORMAL ∧ getTemperatureStatus 20 = "正常") :=
  ⟨(classifier_schemeA 40).1 (by norm_num),
   (classifier_schemeA 32).2.1 ⟨by norm_num, by norm_num⟩,
   (classifier_schemeA 20).2.2.1 (by norm_num)⟩

/-! ### Claim C4: boundary values of the classifier -/

/-- C4 counterexample: the claim says classifying 35.0 yields danger, but
`getTemperatureColor`/`getTemperatureStatus` use a strict `> 35` comparison,
so 35.0 falls into the warning tier. -/
theorem boundary_35_is_warning :
    getTemperatureColor 35 ≠ COLOR_DANGER ∧ getTemperatureStatus 35 ≠ "危险" ∧
    getTemperatureColor 35 = COLOR_WARNING ∧ getTemperatureStatus 35 = "警告" := by
  have h35 : ¬ ((35 : ℚ) > DANGER_MIN) := by unfold DANGER_MIN; norm_num
  have h30 : (35 : ℚ) ≥ SAFE_MAX := by unfold SAFE_MAX; norm_num
  unfold getTemperatureColor getTemperatureStatus
  rw [if_neg h35, if_pos h30, if_neg h35, if_pos h30]
  refine ⟨by decide, by decide, rfl, rfl⟩

/-- C4 amended: 35.0 yields warning (not danger); 34.999 yields warning,
30.0 yields warning, 29.999 yields normal; and the classifier is a pure
deterministic function of its scalar argument. -/
theorem classifier_boundaries (t₁ t₂ : ℚ) (h : t₁ = t₂) :
    (getTemperatureColor 35 = COLOR_WARNING ∧ getTemperatureStatus 35 = "警告") ∧
    (getTemperatureColor (34999/1000) = COLOR_WARNING ∧
      getTemperatureStatus (34999/1000) = "警告") ∧
    (getTemperatureColor 30 = COLOR_WARNING ∧ getTemperatureStatus 30 = "警告") ∧
    (getTemperatureColor (29999/1000) = COLOR_NORMAL ∧
      getTemperatureStatus (29999/1000) = "正常") ∧
    (getTemperatureColor t₁ = getTemperatureColor t₂ ∧
      getTemperatureStatus t₁ = getTemperatureStatus t₂) := by
  subst h
  refine ⟨⟨?_, ?_⟩, ⟨?_, ?_⟩, ⟨?_, ?_⟩, ⟨?_, ?_⟩, rfl, rfl⟩ <;>
    norm_num [getTemperatureColor, getTemperatureStatus, DANGER_MIN, SAFE_MAX]

/-- Witness for C4 (amended) at `t₁ = t₂ = 35`. -/
theorem classifier_boundaries_witness :
    getTemperatureColor 35 = COLOR_WARNING ∧ getTemperatureStatus 35 = "警告" :=
  (classifier_boundaries 35 35 rfl).1

/-! ### Claim C10: status strings and the unreachable indicator branches -/

/-- C10: `getTemperatureStatus` only ever returns one of the three strings
正常, 警告, 危险 — never 高温警告 or 低温警告 — so the 高温警告/低温警告
`case` branches of `updateStatusIndicator` are unreachable on input coming
from `getTemperatureStatus`: the indicator class is never the warning class. -/
theorem status_strings_closed (t : ℚ) :
    (getTemperatureStatus t = "正常" ∨ getTemperatureStatus t = "警告" ∨
      getTemperatureStatus t = "危险") ∧
    getTemperatureStatus t ≠ "高温警告" ∧
    getTemperatureStatus t ≠ "低温警告" ∧
    statusIndicatorClass (getTemperatureStatus t) ≠ "status-indicator warning" := by
  unfold getTemperatureStatus statusIndicatorClass
  split_ifs <;> simp_all

/-! ### Helper lemmas -/

/-- `clampTemp` always lands in `[TEMP_MIN, TEMP_MAX]`. -/
theorem clampTemp_mem (t : ℚ) : TEMP_MIN ≤ clampTemp t ∧ clampTemp t ≤ TEMP_MAX := by
  unfold clampTemp
  refine ⟨le_max_left _ _, max_le ?_ (min_le_left _ _)⟩
  unfold TEMP_MIN TEMP_MAX
  norm_num

/-- `getLast!` of a list ending in `a` is `a`. -/
theorem getLast!_append_single {α : Type} [Inhabited α] (l : List α) (a : α) :
    (l ++ [a]).getLast! = a :=
  List.getLast!_of_getLast? (List.getLast?_concat l)

/-- The buffer after `updateTemperatureData` is the old buffer (with the
front possibly dropped) followed by the single freshly pushed sample. -/
theorem update_buffer_shape (st : AppState) (r1 r2 : ℚ) (now : ℤ) :
    ∃ smp : Sample,
      smp.temperature = clampTemp (rawNewTemp st.currentTemperature r1 r2) ∧
      smp.timestamp = now ∧
      ((st.temperatureData.length + 1 > DATA_POINTS ∧
          (updateTemperatureData st r1 r2 now).temperatureData
            = st.temperatureData.tail ++ [smp]) ∨
        (st.temperatureData.length + 1 ≤ DATA_POINTS ∧
          (updateTemperatureData st r1 r2 now).temperatureData
            = st.temperatureData ++ [smp])) := by
  refine ⟨⟨if st.temperatureData.length > 0 then st.temperatureData.getLast!.index + 1 else 0,
    clampTemp (rawNewTemp st.currentTemperature r1 r2), now⟩, rfl, rfl, ?_⟩
  unfold updateTemperatureData
  simp only [List.length_append, List.length_cons, List.length_nil]
  by_cases h : st.temperatureData.length + 1 > DATA_POINTS
  · left
    refine ⟨h, ?_⟩
    rw [if_pos (by simpa using h), List.tail_append]
    have hne : st.temperatureData ≠ [] := by
      intro hnil
      rw [hnil] at h
      simp [DATA_POINTS] at h
    simp [List.isEmpty_iff, hne]
  · right
    refine ⟨le_of_not_lt h, ?_⟩
    rw [if_neg (by simpa using h)]

/-! ### Claim C1: clamp invariant -/

/-- C1: every sample ever stored is in bounds — all samples created by
`generateInitialData` satisfy `TEMP_MIN ≤ t ≤ TEMP_MAX`, and
`updateTemperatureData` preserves this invariant of the buffer. -/
theorem samples_clamped
    (r0 : ℚ) (rs : ℕ → ℚ) (now : ℤ) (st : AppState) (r1 r2 : ℚ) (now2 : ℤ)
    (hst : ∀ s ∈ st.temperatureData, TEMP_MIN ≤ s.temperature ∧ s.temperature ≤ TEMP_MAX) :
    (∀ s ∈ (generateInitialState r0 rs now).temperatureData,
        TEMP_MIN ≤ s.temperature ∧ s.temperature ≤ TEMP_MAX) ∧
    (∀ s ∈ (updateTemperatureData st r1 r2 now2).temperatureData,
        TEMP_MIN ≤ s.temperature ∧ s.temperature ≤ TEMP_MAX) := by
  constructor
  · intro s hs
    simp only [generateInitialState, generateInitialData, List.mem_map,
      List.mem_range] at hs
    obtain ⟨i, _, rfl⟩ := hs
    exact clampTemp_mem _
  · intro s hs
    obtain ⟨smp, htemp, -, hshape⟩ := update_buffer_shape st r1 r2 now2
    have hmem : s ∈ st.temperatureData ++ [smp] := by
      rcases hshape with ⟨-, heq⟩ | ⟨-, heq⟩
      · rw [heq] at hs
        rcases List.mem_append.1 hs with h | h
        · exact List.mem_append.2 (Or.inl (List.mem_of_mem_tail h))
        · exact List.mem_append.2 (Or.inr h)
      · rw [heq] at hs
        exact hs
    rcases List.mem_append.1 hmem with h | h
    · exact hst s h
    · rw [List.mem_singleton.1 h, htemp]
      exact clampTemp_mem _

/-- Witness for C1: advancing from an empty buffer stores an in-bounds
sample. -/
theorem samples_clamped_witness :
    TEMP_MIN ≤ ((updateTemperatureData ⟨[], 20⟩ (1/2) (1/2) 0).temperatureData.getLast!).temperature ∧
    ((updateTemperatureData ⟨[], 20⟩ (1/2) (1/2) 0).temperatureData.getLast!).temperature ≤ TEMP_MAX :=
  (samples_clamped (1/2) (fun _ => 1/2) 0 ⟨[], 20⟩ (1/2) (1/2) 0 (by simp)).2
    _ (by simp [updateTemperatureData, DATA_POINTS, List.getLast!_cons])

/-! ### Claim C2: fixed-capacity FIFO ring buffer -/

/-- C2: the buffer length never exceeds `DATA_POINTS` (advance preserves the
bound), and on a full buffer one advance keeps the length at `DATA_POINTS`,
dropping exactly the front sample and appending the new one at the back. -/
theorem ring_buffer (st : AppState) (r1 r2 : ℚ) (now : ℤ) :
    (st.temperatureData.length ≤ DATA_POINTS →
      (updateTemperatureData st r1 r2 now).temperatureData.length ≤ DATA_POINTS) ∧
    (st.temperatureData.length = DATA_POINTS →
      (updateTemperatureData st r1 r2 now).temperatureData.length = DATA_POINTS ∧
      ∃ smp : Sample, (updateTemperatureData st r1 r2 now).temperatureData
          = st.temperatureData.tail ++ [smp]) := by
  obtain ⟨smp, -, -, hshape⟩ := update_buffer_shape st r1 r2 now
  have h50 : DATA_POINTS = 50 := rfl
  constructor
  · intro hle
    rw [h50] at hle
    rcases hshape with ⟨hx, heq⟩ | ⟨hx, heq⟩ <;> rw [h50] at hx <;>
      rw [heq] <;>
      simp only [List.length_append, List.length_tail, List.length_cons,
        List.length_nil, h50] <;> omega
  · intro heqlen
    rw [h50] at heqlen
    rcases hshape with ⟨hgt, heq⟩ | ⟨hle2, heq⟩
    · refine ⟨?_, smp, heq⟩
      rw [h50, heq]
      simp only [List.length_append, List.length_tail, List.length_cons,
        List.length_nil, h50]
      omega
    · exfalso
      rw [h50, heqlen] at hle2
      exact absurd hle2 (by omega)

/-- Witness for C2 on a concrete full buffer of 50 samples. -/
theorem ring_buffer_witness :
    (updateTemperatureData ⟨List.replicate 50 ⟨0, 20, 0⟩, 20⟩ (1/2) (1/2) 0).temperatureData.length
        ≤ DATA_POINTS ∧
    (updateTemperatureData ⟨List.replicate 50 ⟨0, 20, 0⟩, 20⟩ (1/2) (1/2) 0).temperatureData.length
        = DATA_POINTS :=
  ⟨(ring_buffer ⟨List.replicate 50 ⟨0, 20, 0⟩, 20⟩ (1/2) (1/2) 0).1
      (by simp [DATA_POINTS]),
   ((ring_buffer ⟨List.replicate 50 ⟨0, 20, 0⟩, 20⟩ (1/2) (1/2) 0).2
      (by simp [DATA_POINTS])).1⟩

/-! ### Claim C6: currentTemperature tracks the last sample -/

/-- The temperature of the last buffered sample after `updateTemperatureData`
equals the new `currentTemperature`. -/
theorem update_getLast_temperature (st : AppState) (r1 r2 : ℚ) (now : ℤ) :
    ((updateTemperatureData st r1 r2 now).temperatureData.getLast!).temperature
      = (updateTemperatureData st r1 r2 now).currentTemperature := by
  obtain ⟨smp, htemp, -, hshape⟩ := update_buffer_shape st r1 r2 now
  rcases hshape with ⟨-, heq⟩ | ⟨-, heq⟩ <;>
    rw [heq, getLast!_append_single, htemp] <;> rfl

/-- C6: after `generateInitialData` and after every `updateTemperatureData`,
the global `currentTemperature` equals the temperature of the last (most
recently appended) sample in the buffer. -/
theorem current_matches_last
    (r0 : ℚ) (rs : ℕ → ℚ) (now : ℤ) (st : AppState) (r1 r2 : ℚ) (now2 : ℤ) :
    (generateInitialState r0 rs now).currentTemperature
      = ((generateInitialState r0 rs now).temperatureData.getLast!).temperature ∧
    (updateTemperatureData st r1 r2 now2).currentTemperature
      = ((updateTemperatureData st r1 r2 now2).temperatureData.getLast!).temperature :=
  ⟨rfl, (update_getLast_temperature st r1 r2 now2).symm⟩

/-! ### Claim C5: next-value policy of advance -/

/-- C5: with the random draws `r1 r2 ∈ [0, 1)` explicit — above 35 and
`r1 < 0.7` (probability 0.7) the new value is the current one minus a
uniform amount `r2 * 10 ∈ [0, 10]`; above 35 otherwise (probability 0.3) it
is the current one plus a symmetric perturbation in `[-5, 5]`; at or below
35 it is the current one plus a symmetric perturbation in `[-10, 10]`; the
result is clamped to `[TEMP_MIN, TEMP_MAX]` and becomes the appended
sample's temperature. -/
theorem next_value_policy (st : AppState) (r1 r2 : ℚ) (now : ℤ)
    (h1 : 0 ≤ r1) (h2 : r1 < 1) (h3 : 0 ≤ r2) (h4 : r2 < 1) :
    ((st.currentTemperature > 35 ∧ r1 < 7/10) →
      (updateTemperatureData st r1 r2 now).currentTemperature
          = clampTemp (st.currentTemperature - r2 * 10) ∧
        0 ≤ r2 * 10 ∧ r2 * 10 ≤ 10) ∧
    ((st.currentTemperature > 35 ∧ ¬ r1 < 7/10) →
      (updateTemperatureData st r1 r2 now).currentTemperature
          = clampTemp (st.currentTemperature + (r2 - 1/2) * 10) ∧
        -5 ≤ (r2 - 1/2) * 10 ∧ (r2 - 1/2) * 10 ≤ 5) ∧
    (¬ st.currentTemperature > 35 →
      (updateTemperatureData st r1 r2 now).currentTemperature
          = clampTemp (st.currentTemperature + (r1 - 1/2) * 20) ∧
        -10 ≤ (r1 - 1/2) * 20 ∧ (r1 - 1/2) * 20 ≤ 10) ∧
    ((updateTemperatureData st r1 r2 now).temperatureData.getLast!).temperature
      = (updateTemperatureData st r1 r2 now).currentTemperature := by
  have hcur : (updateTemperatureData st r1 r2 now).currentTemperature
      = clampTemp (rawNewTemp st.currentTemperature r1 r2) := rfl
  refine ⟨?_, ?_, ?_, update_getLast_temperature st r1 r2 now⟩
  · rintro ⟨hhot, hr⟩
    refine ⟨?_, by linarith, by linarith⟩
    rw [hcur]
    unfold rawNewTemp
    rw [if_pos hhot, if_pos hr]
  · rintro ⟨hhot, hr⟩
    refine ⟨?_, by linarith, by linarith⟩
    rw [hcur]
    unfold rawNewTemp
    rw [if_pos hhot, if_neg hr]
  · intro hcool
    refine ⟨?_, by linarith, by linarith⟩
    rw [hcur]
    unfold rawNewTemp
    rw [if_neg hcool]

/-- Witness for C5 in the elevated/cooling branch at temperature 40 with
draws `r1 = r2 = 1/2`. -/
theorem next_value_policy_witness :
    (updateTemperatureData ⟨[⟨0, 40, 0⟩], 40⟩ (1/2) (1/2) 0).currentTemperature
        = clampTemp (40 - (1/2 : ℚ) * 10) ∧
      0 ≤ (1/2 : ℚ) * 10 ∧ (1/2 : ℚ) * 10 ≤ 10 :=
  (next_value_policy ⟨[⟨0, 40, 0⟩], 40⟩ (1/2) (1/2) 0 (by norm_num) (by norm_num)
      (by norm_num) (by norm_num)).1 ⟨by norm_num, by norm_num⟩

/-! ### Claim C7: shape of the initial data -/

/-- Element `i` of the initial buffer. -/
theorem generateInitialData_getD (r0 : ℚ) (rs : ℕ → ℚ) (now : ℤ) (i : ℕ)
    (h : i < DATA_POINTS) (d : Sample) :
    (generateInitialData r0 rs now).getD i d
      = initSample (20 + r0 * 8) now (rs i) i := by
  unfold generateInitialData
  rw [List.getD_eq_getElem?_getD, List.getElem?_map, List.getElem?_range h]
  rfl

/-- The last element of the initial buffer is the sample of iteration 49. -/
theorem generateInitialData_getLast (r0 : ℚ) (rs : ℕ → ℚ) (now : ℤ) :
    (generateInitialData r0 rs now).getLast!
      = initSample (20 + r0 * 8) now (rs 49) 49 := by
  unfold generateInitialData DATA_POINTS
  rw [show (50 : ℕ) = 49 + 1 from rfl, List.range_succ, List.map_append]
  exact getLast!_append_single _ _

/-- C7 counterexample: with call time `now = 0` the last generated sample's
timestamp is -1000 — one second before the call — not `now` as claimed. -/
theorem initial_last_timestamp_not_now :
    ((generateInitialData 0 (fun _ => 0) 0).getLast!).timestamp = -1000 ∧
    ((generateInitialData 0 (fun _ => 0) 0).getLast!).timestamp ≠ 0 := by
  rw [generateInitialData_getLast 0 (fun _ => 0) 0]
  unfold initSample DATA_POINTS
  norm_num

/-- C7 amended: `generateInitialData` produces exactly `DATA_POINTS` samples
with indices 0..49, each temperature the base `20 + r0 * 8` plus uniform
noise in `[-TEMP_VARIATION/2, TEMP_VARIATION/2]` clamped to the bounds,
timestamps spaced exactly 1000 ms apart — but the last timestamp is
`now - 1000`, one second before the call, not `now` — and
`currentTemperature` is set to the last sample's temperature. -/
theorem initial_data_shape (r0 : ℚ) (rs : ℕ → ℚ) (now : ℤ) (d : Sample)
    (hrs : ∀ i, 0 ≤ rs i ∧ rs i < 1) :
    (generateInitialData r0 rs now).length = DATA_POINTS ∧
    (generateInitialData r0 rs now).map Sample.index = List.range DATA_POINTS ∧
    (∀ i < DATA_POINTS, ∃ noise : ℚ,
      -(TEMP_VARIATION / 2) ≤ noise ∧ noise ≤ TEMP_VARIATION / 2 ∧
      ((generateInitialData r0 rs now).getD i d).temperature
        = clampTemp ((20 + r0 * 8) + noise)) ∧
    (∀ i, i + 1 < DATA_POINTS →
      ((generateInitialData r0 rs now).getD (i + 1) d).timestamp
        - ((generateInitialData r0 rs now).getD i d).timestamp = 1000) ∧
    ((generateInitialData r0 rs now).getLast!).timestamp = now - 1000 ∧
    (generateInitialState r0 rs now).currentTemperature
      = ((generateInitialData r0 rs now).getLast!).temperature := by
  refine ⟨?_, ?_, ?_, ?_, ?_, rfl⟩
  · simp [generateInitialData]
  · unfold generateInitialData
    rw [List.map_map]
    exact List.map_id _
  · intro i hi
    rw [generateInitialData_getD r0 rs now i hi d]
    refine ⟨(rs i - 1/2) * TEMP_VARIATION, ?_, ?_, rfl⟩
    · have := (hrs i).1
      unfold TEMP_VARIATION
      linarith
    · have := (hrs i).2
      unfold TEMP_VARIATION
      linarith
  · intro i hi
    rw [generateInitialData_getD r0 rs now (i + 1) hi d,
      generateInitialData_getD r0 rs now i (by omega) d]
    unfold initSample
    push_cast
    ring
  · rw [generateInitialData_getLast r0 rs now]
    unfold initSample DATA_POINTS
    norm_num

/-- Witness for C7 (amended) at concrete inputs. -/
theorem initial_data_shape_witness :
    (generateInitialData 0 (fun _ => 0) 0).length = DATA_POINTS ∧
    ((generateInitialData 0 (fun _ => 0) 0).getLast!).timestamp = 0 - 1000 :=
  ⟨(initial_data_shape 0 (fun _ => 0) 0 default
      (fun _ => ⟨le_refl 0, by norm_num⟩)).1,
   (initial_data_shape 0 (fun _ => 0) 0 default
      (fun _ => ⟨le_refl 0, by norm_num⟩)).2.2.2.2.1⟩

/-! ### Claim C8: renderer coordinate mappings (drawTemperatureCurve) -/

/-- The inset plot rectangle (`chartArea` in `drawChart`). -/
structure ChartArea where
  x : ℚ
  y : ℚ
  width : ℚ
  height : ℚ
deriving Repr, DecidableEq

/-- `tempToY` from `drawTemperatureCurve`. -/
def tempToY (area : ChartArea) (temp : ℚ) : ℚ :=
  area.y + area.height - ((temp - TEMP_MIN) / (TEMP_MAX - TEMP_MIN)) * area.height

/-- `indexRange` from `drawTemperatureCurve`: the denominator of the x
mapping, `Math.max(maxIndex - minIndex, DATA_POINTS - 1)` over the indices
currently in the buffer. -/
def indexRange (data : List Sample) : ℚ :=
  max ((data.getLast!.index : ℚ) - (data.headI.index : ℚ)) ((DATA_POINTS : ℚ) - 1)

/-- `indexToX` from `drawTemperatureCurve`. -/
def indexToX (area : ChartArea) (data : List Sample) (index : ℚ) : ℚ :=
  area.x + ((index - (data.headI.index : ℚ)) / indexRange data) * area.width

/-- C8: `tempToY` maps `TEMP_MIN` to the plot bottom and `TEMP_MAX` to the
plot top, is strictly decreasing, and is affine (total — it extrapolates
linearly outside the clamp range); `indexToX` is affine and strictly
increasing in the index, with denominator at least `DATA_POINTS - 1`. -/
theorem coordinate_mapping (area : ChartArea) (data : List Sample)
    (hh : 0 < area.height) (hw : 0 < area.width) :
    tempToY area TEMP_MIN = area.y + area.height ∧
    tempToY area TEMP_MAX = area.y ∧
    (∀ t₁ t₂ : ℚ, t₁ < t₂ → tempToY area t₂ < tempToY area t₁) ∧
    (∃ a b : ℚ, a < 0 ∧ ∀ t : ℚ, tempToY area t = a * t + b) ∧
    (DATA_POINTS : ℚ) - 1 ≤ indexRange data ∧
    (∃ a b : ℚ, 0 < a ∧ ∀ idx : ℚ, indexToX area data idx = a * idx + b) ∧
    (∀ i₁ i₂ : ℚ, i₁ < i₂ → indexToX area data i₁ < indexToX area data i₂) := by
  have haff : ∀ t : ℚ, tempToY area t
      = (-(area.height / 40)) * t + (area.y + area.height + (10 / 40) * area.height) := by
    intro t
    unfold tempToY TEMP_MIN TEMP_MAX
    ring
  have hR : 0 < indexRange data := by
    have h1 : (DATA_POINTS : ℚ) - 1 ≤ indexRange data := le_max_right _ _
    have h2 : (0 : ℚ) < (DATA_POINTS : ℚ) - 1 := by
      unfold DATA_POINTS
      norm_num
    linarith
  have haffX : ∀ idx : ℚ, indexToX area data idx
      = (area.width / indexRange data) * idx
        + (area.x - (data.headI.index : ℚ) * (area.width / indexRange data)) := by
    intro idx
    unfold indexToX
    ring
  have hslope : 0 < area.width / indexRange data := div_pos hw hR
  refine ⟨?_, ?_, ?_, ?_, le_max_right _ _, ?_, ?_⟩
  · unfold tempToY TEMP_MIN TEMP_MAX
    norm_num
  · unfold tempToY TEMP_MIN TEMP_MAX
    norm_num
  · intro t₁ t₂ hlt
    rw [haff t₁, haff t₂]
    have hpos : 0 < area.height / 40 := by positivity
    nlinarith
  · refine ⟨-(area.height / 40), area.y + area.height + (10 / 40) * area.height, ?_, haff⟩
    have hpos : 0 < area.height / 40 := by positivity
    linarith
  · exact ⟨area.width / indexRange data,
      area.x - (data.headI.index : ℚ) * (area.width / indexRange data), hslope, haffX⟩
  · intro i₁ i₂ hlt
    rw [haffX i₁, haffX i₂]
    nlinarith

/-- Witness for C8 on the concrete 800 × 400 chart area of the source. -/
theorem coordinate_mapping_witness :
    tempToY ⟨60, 20, 660, 330⟩ TEMP_MIN = 20 + 330 ∧
    tempToY ⟨60, 20, 660, 330⟩ TEMP_MAX = 20 :=
  ⟨(coordinate_mapping ⟨60, 20, 660, 330⟩ [] (by norm_num) (by norm_num)).1,
   (coordinate_mapping ⟨60, 20, 660, 330⟩ [] (by norm_num) (by norm_num)).2.1⟩

/-! ### Claim C9: timer discipline -/

/-- The timer handle `chartInterval` together with an explicit model of the
environment's timer table: `active` lists the ids of currently scheduled
interval timers, `nextId` the fresh id the next `setInterval` call returns
(ids are positive and increasing, as browser timer handles are). -/
structure SchedState where
  chartInterval : Option ℕ
  active : List ℕ
  nextId : ℕ
deriving Repr, DecidableEq

/-- `clearInterval(h)`: timer `h` is no longer active. -/
def clearIntervalOp (s : SchedState) (h : ℕ) : SchedState :=
  { s with active := s.active.filter (fun x => x != h) }

/-- `setInterval(...)`: schedules a fresh timer and returns its handle. -/
def setIntervalOp (s : SchedState) : SchedState × ℕ :=
  ({ s with active := s.nextId :: s.active, nextId := s.nextId + 1 }, s.nextId)

/-- `startDataUpdate` from src/app.js: clears the existing timer if the
handle is set, then schedules a new one and stores its handle. -/
def startDataUpdate (s : SchedState) : SchedState :=
  let s1 := match s.chartInterval with
    | some h => clearIntervalOp s h
    | none => s
  let p := setIntervalOp s1
  { p.1 with chartInterval := some p.2 }

/-- `stopDataUpdate` from src/app.js: clears the timer and nulls the handle
if the handle is set, otherwise does nothing. -/
def stopDataUpdate (s : SchedState) : SchedState :=
  match s.chartInterval with
  | some h => { clearIntervalOp s h with chartInterval := none }
  | none => s

/-- `resetSimulation` restricted to its timer effects: it stops, then
(regenerate / redraw / display-update touch no timer state) starts again. -/
def resetSimulation (s : SchedState) : SchedState :=
  startDataUpdate (stopDataUpdate s)

/-- The scheduler invariant: the active timers are exactly the one the
handle names (so at most one), and every active id predates `nextId`. -/
def SchedInv (s : SchedState) : Prop :=
  s.active = s.chartInterval.toList ∧ ∀ x ∈ s.active, x < s.nextId

/-- Under the invariant, `startDataUpdate` leaves exactly the fresh timer
active and stores its handle. -/
theorem startDataUpdate_fields (s : SchedState) (hinv : SchedInv s) :
    (startDataUpdate s).active = [s.nextId] ∧
    (startDataUpdate s).chartInterval = some s.nextId ∧
    (startDataUpdate s).nextId = s.nextId + 1 := by
  obtain ⟨hact, -⟩ := hinv
  cases hc : s.chartInterval with
  | none =>
    rw [hc] at hact
    simp only [Option.toList] at hact
    refine ⟨?_, ?_, ?_⟩ <;>
      simp [startDataUpdate, setIntervalOp, hc, hact]
  | some h =>
    rw [hc] at hact
    simp only [Option.toList] at hact
    refine ⟨?_, ?_, ?_⟩ <;>
      simp [startDataUpdate, setIntervalOp, clearIntervalOp, hc, hact]

/-- Under the invariant, `stopDataUpdate` ends with no active timer and a
null handle. -/
theorem stopDataUpdate_fields (s : SchedState) (hinv : SchedInv s) :
    (stopDataUpdate s).active = [] ∧ (stopDataUpdate s).chartInterval = none ∧
    (stopDataUpdate s).nextId = s.nextId := by
  obtain ⟨hact, -⟩ := hinv
  cases hc : s.chartInterval with
  | none =>
    rw [hc] at hact
    simp only [Option.toList] at hact
    refine ⟨?_, ?_, ?_⟩ <;> simp [stopDataUpdate, hc, hact]
  | some h =>
    rw [hc] at hact
    simp only [Option.toList] at hact
    refine ⟨?_, ?_, ?_⟩ <;> simp [stopDataUpdate, clearIntervalOp, hc, hact]

/-- C9: with the scheduler state modelled as the timer handle plus the
timer table — under the invariant, at most one timer is ever active; the
invariant is preserved by start, stop and reset; starting while running
cancels the stored timer before creating the new one, and two starts in a
row leave exactly one active timer; stopping with no timer running is a
no-op; and reset ends with exactly one active timer. -/
theorem timer_discipline (s : SchedState) (hinv : SchedInv s) :
    s.active.length ≤ 1 ∧
    SchedInv (startDataUpdate s) ∧
    SchedInv (stopDataUpdate s) ∧
    SchedInv (resetSimulation s) ∧
    (startDataUpdate s).active.length = 1 ∧
    (∀ h : ℕ, s.chartInterval = some h → h ∉ (startDataUpdate s).active) ∧
    (startDataUpdate (startDataUpdate s)).active.length = 1 ∧
    (s.chartInterval = none → stopDataUpdate s = s) ∧
    (resetSimulation s).active.length = 1 := by
  obtain ⟨hstart1, hstart2, hstart3⟩ := startDataUpdate_fields s hinv
  obtain ⟨hstop1, hstop2, hstop3⟩ := stopDataUpdate_fields s hinv
  have hinvStart : SchedInv (startDataUpdate s) := by
    refine ⟨by rw [hstart1, hstart2]; rfl, ?_⟩
    intro x hx
    rw [hstart1] at hx
    rw [hstart3]
    simp only [List.mem_singleton] at hx
    omega
  have hinvStop : SchedInv (stopDataUpdate s) := by
    refine ⟨by rw [hstop1, hstop2]; rfl, ?_⟩
    intro x hx
    rw [hstop1] at hx
    exact absurd hx (List.not_mem_nil x)
  obtain ⟨hr1, hr2, hr3⟩ := startDataUpdate_fields (stopDataUpdate s) hinvStop
  obtain ⟨hs1, hs2, hs3⟩ := startDataUpdate_fields (startDataUpdate s) hinvStart
  refine ⟨?_, hinvStart, hinvStop, ?_, ?_, ?_, ?_, ?_, ?_⟩
  · rw [hinv.1]
    cases s.chartInterval <;> simp [Option.toList]
  · unfold resetSimulation
    refine ⟨by rw [hr1, hr2]; rfl, ?_⟩
    intro x hx
    rw [hr1] at hx
    rw [hr3]
    simp only [List.mem_singleton] at hx
    omega
  · rw [hstart1]
    rfl
  · intro h hh
    rw [hstart1]
    have hx : h < s.nextId := hinv.2 h (by rw [hinv.1, hh]; exact List.mem_singleton.2 rfl)
    simp only [List.mem_singleton]
    omega
  · rw [hs1]
    rfl
  · intro hc
    unfold stopDataUpdate
    rw [hc]
  · unfold resetSimulation
    rw [hr1]
    rfl

/-- Witness for C9 at the startup state (null handle, no timers). -/
theorem timer_discipline_witness :
    (startDataUpdate ⟨none, [], 1⟩).active.length = 1 ∧
    (resetSimulation ⟨none, [], 1⟩).active.length = 1 ∧
    stopDataUpdate ⟨none, [], 1⟩ = ⟨none, [], 1⟩ :=
  ⟨(timer_discipline ⟨none, [], 1⟩ ⟨rfl, by simp⟩).2.2.2.2.1,
   (timer_discipline ⟨none, [], 1⟩ ⟨rfl, by simp⟩).2.2.2.2.2.2.2.2,
   (timer_discipline ⟨none, [], 1⟩ ⟨rfl, by simp⟩).2.2.2.2.2.2.2.1 rfl⟩

end TempSim
